import Mathlib

/-!
Shallow embedding of the QT-Download-Manager core (src/downloader_h.cpp:
Downloader, plus the recovery and progress-bar logic of Main.cpp).

Modelling conventions:
* `qint64` values are `Int`; byte counts measured from files are `Nat`.
* Qt file semantics are modelled faithfully:
  - `QFile::open(QIODevice::WriteOnly)` truncates the file to size 0
    (WriteOnly implies Truncate for QFile) and fails, leaving the file
    untouched, when the same QFile object is already open.
  - `QString::section(":", 1)` returns everything after the first colon
    (sections 1 .. last rejoined with ":"), or "" when there is no colon.
  - `QString::toLongLong` returns 0 when the whole string is not a valid
    integer literal.
* `QMutexLocker` only serialises access; the embedding gives the sequential
  (single-thread, serialised) semantics of each member function.  (The
  source re-locks the same non-recursive QMutex in nested calls such as
  startDownload -> createProgressFile; the data flow modelled here is the
  serialised body those lock scopes protect.)
* The network is the environment: `startDownload`'s reply carries the
  content-length header value the server will report (read only by
  `pauseDownload`), and the slots `onDownloadProgress` /
  `onDownloadFinished` take the transport-reported numbers and the size of
  the buffered data `reply->readAll()` would return as parameters.
* Filesystem writes are assumed to succeed (no disk-full / permission
  failures); the destination path and progress-record path of a single
  `Downloader` are fixed, so the on-disk state is one destination-file
  size plus one optional progress-record (its lines).
-/

namespace QTDM

/-- Character-list helper: everything after the first ':' (empty if none) —
the behaviour of Qt `line.section(":", 1)`. -/
def dropUntilColon : List Char → List Char
  | [] => []
  | c :: cs => if c = ':' then cs else dropUntilColon cs

def sectionAfterColon (s : String) : String := ⟨dropUntilColon s.data⟩

def isQtSpace (c : Char) : Bool :=
  c = ' ' || c = '\t' || c = '\n' || c = '\r'

/-- Qt `QString::trimmed`: strip whitespace from both ends. -/
def qtTrimmed (s : String) : String :=
  ⟨((s.data.dropWhile isQtSpace).reverse.dropWhile isQtSpace).reverse⟩

def digitsToNat : List Char → Option Nat
  | [] => none
  | cs =>
    cs.foldl (fun acc c =>
      match acc with
      | none => none
      | some n => if c.isDigit then some (n * 10 + (c.toNat - 48)) else none)
      (some 0)

/-- Qt `QString::toLongLong` (base 10, no `ok` out-parameter): the value when
the entire string is an optionally-signed integer literal, otherwise 0. -/
def qtToLongLong (s : String) : Int :=
  match s.data with
  | '-' :: rest =>
    match digitsToNat rest with
    | some n => -(n : Int)
    | none => 0
  | cs =>
    match digitsToNat cs with
    | some n => (n : Int)
    | none => 0

/-- Qt `QUrl::fileName`: the part of the URL after the last '/'. -/
def urlFileName (u : String) : String :=
  ⟨(u.data.reverse.takeWhile (fun c => ¬ c = '/')).reverse⟩

/-- Destination path built in `startDownload`
(`QDir::homePath() + "/qt_downloads/" + url.fileName()`). -/
def destPath (u : String) : String :=
  "~/qt_downloads/" ++ urlFileName u

/-- The lines `createProgressFile` writes (downloader_h.cpp:177-182). -/
def renderInit (url : String) : List String :=
  ["Download URL: " ++ url, "Downloaded: 0", "Status: in-progress"]

/-- The lines written by `updateProgressFile`, by the pause branch of
`pauseDownload` and by the completion branch of `onDownloadFinished`; the
three differ only in the numbers and the status word
(downloader_h.cpp:99-105, 131-137, 188-194). -/
def renderRecord (url : String) (bytes total : Int) (status : String) :
    List String :=
  ["Download URL: " ++ url,
   "Downloaded: " ++ toString bytes ++ " / " ++ toString total,
   "Status: " ++ status]

/-- Externally observable actions of a `Downloader`: the HTTP request it
issues (with its raw `Range` header, if one is set) and the four Qt signals. -/
inductive Event where
  | request (rangeHeader : Option String)
  | progress (received total : Int)
  | finished (path : String)
  | failed (msg : String)
  | pauseChanged (p : Bool)
  deriving DecidableEq, Repr

/-- State of one `Downloader` object together with the on-disk state of its
two files.  `fileObj` is the `file` member: `none` = null pointer, `some b`
= a QFile object whose open-flag is `b`.  `diskSize` is the destination
file's on-disk byte count.  `progressFileSet` is whether the `progressFile`
member is non-null (the object itself is closed between writes).  `record`
is the progress file on disk, as its list of lines (`none` = absent).
`reply` is the current `QNetworkReply` pointer; `some clen` carries the
content-length header value `pauseDownload` reads from it. -/
structure DState where
  url : String
  downloadedBytes : Int
  paused : Bool
  fileObj : Option Bool
  diskSize : Nat
  progressFileSet : Bool
  record : Option (List String)
  reply : Option Int
  deriving DecidableEq, Repr

/-- A freshly constructed `Downloader` (downloader_h.cpp:53-55) whose
destination file and progress record do not yet exist on disk. -/
def initState (url : String) : DState :=
  { url := url, downloadedBytes := 0, paused := false, fileObj := none,
    diskSize := 0, progressFileSet := false, record := none, reply := none }

/-- `Downloader::startDownload` (downloader_h.cpp:57-87).  A new QFile is
constructed and opened WriteOnly — Qt truncates the destination file and
leaves the object open.  The progress file is created only when no record
is already on disk.  `downloadedBytes` is then set to `file->size()`, the
size of the just-truncated file, and the request always carries the raw
header `Range: bytes=<downloadedBytes>-`.  `clen` is the content-length
header of the reply the network returns. -/
def startDownload (s : DState) (clen : Int) : DState × List Event :=
  let s1 : DState := { s with fileObj := some true, diskSize := 0 }
  let s2 : DState :=
    if s1.record.isNone then
      { s1 with progressFileSet := true, record := some (renderInit s1.url) }
    else s1
  let s3 : DState := { s2 with downloadedBytes := (s2.diskSize : Int) }
  let hdr : String := "bytes=" ++ toString s3.downloadedBytes ++ "-"
  ({ s3 with reply := some clen }, [Event.request (some hdr)])

/-- `Downloader::updateProgressFile` (downloader_h.cpp:186-195): rewrites
the record with status "in-progress" when the `progressFile` member is
non-null (its QFile object is closed between writes, so reopening
succeeds). -/
def updateProgressFile (s : DState) (bytesReceived bytesTotal : Int) :
    DState :=
  if s.progressFileSet then
    { s with
      record := some (renderRecord s.url bytesReceived bytesTotal "in-progress") }
  else s

/-- `Downloader::onDownloadProgress` (downloader_h.cpp:150-166).  Sets the
counter to the transport's cumulative `bytesReceived`; tries to reopen the
destination file WriteOnly — this fails when the object is still open (it
was left open by `startDownload`), otherwise it truncates the file and
writes the `readAll` buffer (`chunk` bytes); emits the progress signal with
the placeholder total 1 whenever `bytesTotal ≤ 0`; rewrites the record.
Qt only invokes this slot after `startDownload` has connected it, so
`fileObj = none` (a null `file`) cannot occur on a delivered callback; the
embedding leaves the state unchanged there. -/
def onDownloadProgress (s : DState) (bytesReceived bytesTotal : Int)
    (chunk : Nat) : DState × List Event :=
  match s.fileObj with
  | none => (s, [])
  | some isOpen =>
    let s1 : DState := { s with downloadedBytes := bytesReceived }
    let s2 : DState :=
      if isOpen then s1
      else { s1 with diskSize := chunk, fileObj := some false }
    let ev : Event :=
      if bytesTotal > 0 then Event.progress s2.downloadedBytes bytesTotal
      else Event.progress s2.downloadedBytes 1
    (updateProgressFile s2 s2.downloadedBytes bytesTotal, [ev])

/-- `Downloader::pauseDownload` (downloader_h.cpp:89-109): a no-op unless
not yet paused and a reply exists; otherwise disconnects and aborts the
reply, reads the content-length header from it, rewrites the record with
status "paused", and signals the pause-state change. -/
def pauseDownload (s : DState) : DState × List Event :=
  if ¬ s.paused ∧ s.reply.isSome then
    let totalBytes : Int := s.reply.getD 0
    let s1 : DState := { s with paused := true }
    let s2 : DState :=
      if s1.progressFileSet then
        { s1 with
          record := some (renderRecord s1.url s1.downloadedBytes totalBytes "paused") }
      else s1
    (s2, [Event.pauseChanged true])
  else (s, [])

/-- `Downloader::resumeDownload` (downloader_h.cpp:111-121): a no-op unless
paused; otherwise clears the flag, reconnects the old reply's signals, and
re-runs `startDownload` (which issues a fresh request), then signals the
pause-state change. -/
def resumeDownload (s : DState) (clen : Int) : DState × List Event :=
  if s.paused then
    let r := startDownload { s with paused := false } clen
    (r.1, r.2 ++ [Event.pauseChanged false])
  else (s, [])

/-- `Downloader::onDownloadFinished` (downloader_h.cpp:123-148).  On a
reply with no error: tries to reopen the destination file (fails while the
object is still open; otherwise truncates and writes the remaining
`readAll` buffer of `chunk` bytes); when the `progressFile` member is
non-null, writes the "completed" record and immediately removes the file
and nulls the member; emits `downloadFinished` with the destination path.
On an error: only emits `downloadFailed` — the record is left untouched. -/
def onDownloadFinished (s : DState) (err : Option String) (chunk : Nat) :
    DState × List Event :=
  match err with
  | none =>
    let s1 : DState :=
      match s.fileObj with
      | some false => { s with diskSize := chunk, fileObj := some false }
      | _ => s
    let s2 : DState :=
      if s1.progressFileSet then
        { s1 with record := none, progressFileSet := false }
      else s1
    (s2, [Event.finished (destPath s2.url)])
  | some e => (s, [Event.failed e])

/-- One externally triggered operation on a `Downloader`. -/
inductive Op where
  | start (clen : Int)
  | progress (bytesReceived bytesTotal : Int) (chunk : Nat)
  | pause
  | resume (clen : Int)
  | finish (err : Option String) (chunk : Nat)
  deriving DecidableEq, Repr

def step (s : DState) : Op → DState × List Event
  | Op.start clen => startDownload s clen
  | Op.progress br bt c => onDownloadProgress s br bt c
  | Op.pause => pauseDownload s
  | Op.resume clen => resumeDownload s clen
  | Op.finish err c => onDownloadFinished s err c

/-- Run a sequence of operations, collecting the emitted events. -/
def run (s : DState) : List Op → DState × List Event
  | [] => (s, [])
  | op :: ops =>
    let r := step s op
    let r2 := run r.1 ops
    (r2.1, r.2 ++ r2.2)

/-- The per-record parse loop of `loadUnfinishedDownloads`
(Main.cpp, downloader_h.cpp:335-344): fold over the lines, keeping the
last `Download URL:` / `Downloaded:` / `Status:` values seen, each taken
as everything after the first colon, trimmed (`Downloaded:` additionally
through `toLongLong`). -/
def parseRecord (lines : List String) : String × Int × String :=
  lines.foldl (fun acc line =>
    if ("Download URL:".data).isPrefixOf line.data then
      (qtTrimmed (sectionAfterColon line), acc.2.1, acc.2.2)
    else if ("Downloaded:".data).isPrefixOf line.data then
      (acc.1, qtToLongLong (qtTrimmed (sectionAfterColon line)), acc.2.2)
    else if ("Status:".data).isPrefixOf line.data then
      (acc.1, acc.2.1, qtTrimmed (sectionAfterColon line))
    else acc)
    ("", 0, "")

/-- The resubmission decision of `loadUnfinishedDownloads`
(downloader_h.cpp:346-348): scan every record on disk and start a new
download for each whose parsed URL is nonempty and whose parsed status is
not "in-progress". -/
def recoveredUrls (records : List (List String)) : List String :=
  records.filterMap (fun ls =>
    let p := parseRecord ls
    if p.1 ≠ "" ∧ p.2.2 ≠ "in-progress" then some p.1 else none)

/-- The progress-bar lambda of `Main.cpp::startDownload`
(downloader_h.cpp:291-299): `setValue(0)` when `bytesTotal == 0`, otherwise
`setValue((bytesReceived * 100) / bytesTotal)` (C++ `qint64` division
truncates toward zero, `Int.tdiv`). -/
def progressBarValue (bytesReceived bytesTotal : Int) : Int :=
  if bytesTotal = 0 then 0 else Int.tdiv (bytesReceived * 100) bytesTotal

/-- The divisors the progress-bar lambda actually uses, branch for branch:
none on the `bytesTotal == 0` path, and `bytesTotal` itself on the
division path. -/
def progressBarDivisors (bytesTotal : Int) : List Int :=
  if bytesTotal = 0 then [] else [bytesTotal]

/-- A `Downloader` that was paused while its destination file holds 400 of
the server's 1000 bytes — the paused download of the specification's
concrete scenario. -/
def pausedWith400OnDisk : DState :=
  { url := "http://example.com/file.bin", downloadedBytes := 400,
    paused := true, fileObj := some true, diskSize := 400,
    progressFileSet := true,
    record := some (renderRecord "http://example.com/file.bin" 400 1000 "paused"),
    reply := some 1000 }

/-! ### Basic lemmas about the operations -/

theorem startDownload_downloadedBytes (s : DState) (clen : Int) :
    (startDownload s clen).1.downloadedBytes = 0 := by
  by_cases h : s.record.isNone <;> simp [startDownload, h]

theorem startDownload_events (s : DState) (clen : Int) :
    (startDownload s clen).2 = [Event.request (some "bytes=0-")] := by
  by_cases h : s.record.isNone <;> simp [startDownload, h] <;> rfl

theorem onDownloadProgress_downloadedBytes (s : DState) (br bt : Int)
    (c : Nat) (b : Bool) (hf : s.fileObj = some b) :
    (onDownloadProgress s br bt c).1.downloadedBytes = br := by
  cases b <;>
    simp [onDownloadProgress, updateProgressFile, hf] <;>
    split <;> rfl

theorem onDownloadProgress_events (s : DState) (br bt : Int) (c : Nat)
    (b : Bool) (hf : s.fileObj = some b) :
    (onDownloadProgress s br bt c).2 =
      [if bt > 0 then Event.progress br bt else Event.progress br 1] := by
  cases b <;> simp [onDownloadProgress, hf]

theorem pauseDownload_downloadedBytes (s : DState) :
    (pauseDownload s).1.downloadedBytes = s.downloadedBytes := by
  unfold pauseDownload
  split
  · dsimp only
    split <;> rfl
  · rfl

theorem onDownloadFinished_downloadedBytes (s : DState) (err : Option String)
    (c : Nat) :
    (onDownloadFinished s err c).1.downloadedBytes = s.downloadedBytes := by
  cases err with
  | none =>
    cases hf : s.fileObj with
    | none => simp [onDownloadFinished, hf]; split <;> rfl
    | some b => cases b <;> simp [onDownloadFinished, hf] <;> split <;> rfl
  | some e => rfl

/-! ### Claims -/

/-- Claim C1.  The per-chunk handler is claimed to append each received
chunk to the destination file exactly once and keep `bytesDownloaded`
equal to the file's on-disk byte count at every observation point.  The
code does not: `startDownload` leaves the destination QFile open, so the
reopen inside `onDownloadProgress` fails and the chunk is never written
(and even a successful WriteOnly reopen would truncate rather than
append).  After one 100-byte progress callback the counter reads 100
while the file on disk holds 0 bytes. -/
theorem c1_counter_diverges_from_disk :
    (run (initState "http://example.com/file.bin")
        [Op.start 1000, Op.progress 100 1000 100]).1.downloadedBytes = 100 ∧
    (run (initState "http://example.com/file.bin")
        [Op.start 1000, Op.progress 100 1000 100]).1.diskSize = 0 := by
  decide

/-- Claim C2.  Resuming the paused download whose destination file holds
400 bytes is claimed to issue a range request at offset 400 and to leave
the file unchanged.  The code re-runs `startDownload`, whose WriteOnly
open truncates the file to 0 bytes before `file->size()` is read, so the
request carries `Range: bytes=0-` and the 400 on-disk bytes are
destroyed. -/
theorem c2_resume_truncates_and_requests_offset_zero :
    pausedWith400OnDisk.paused = true ∧
    pausedWith400OnDisk.diskSize = 400 ∧
    (resumeDownload pausedWith400OnDisk 1000).1.diskSize = 0 ∧
    (resumeDownload pausedWith400OnDisk 1000).2 =
      [Event.request (some "bytes=0-"), Event.pauseChanged false] := by
  decide

/-- Claim C5, counterexample.  The claim says a start from offset `n = 0`
issues a plain GET with no Range header; on a fresh worker the code
nevertheless sets the raw header `Range: bytes=0-`. -/
theorem c5_range_header_present_at_zero_offset :
    (startDownload (initState "http://example.com/file.bin") 1000).1.downloadedBytes = 0 ∧
    (startDownload (initState "http://example.com/file.bin") 1000).2 =
      [Event.request (some "bytes=0-")] := by
  decide

/-- Claim C5, amended.  Every invocation of `startDownload` opens the
destination file WriteOnly (truncating it), takes the resulting size —
always 0 — as the offset, and always issues a GET carrying the header
`Range: bytes=0-`, also when the offset is 0. -/
theorem c5_start_always_sends_range_header (s : DState) (clen : Int) :
    (startDownload s clen).1.downloadedBytes = 0 ∧
    (startDownload s clen).2 = [Event.request (some "bytes=0-")] :=
  ⟨startDownload_downloadedBytes s clen, startDownload_events s clen⟩

/-- Claim C9, counterexample.  On a worker with no prior `start`, `resume`
is claimed to behave exactly as a fresh start from offset 0; in the code
it does nothing (the `paused` flag is still false, so `resumeDownload`
returns without issuing any request), while `startDownload` on the same
worker issues a request. -/
theorem c9_resume_without_start_unlike_start :
    resumeDownload (initState "http://example.com/file.bin") 1000 =
      (initState "http://example.com/file.bin", []) ∧
    (startDownload (initState "http://example.com/file.bin") 1000).2 =
      [Event.request (some "bytes=0-")] := by
  decide

/-- Claim C9, amended.  Calling `resume` on a worker on which `start` was
never invoked is a no-op: the `paused` flag of a fresh worker is false, so
`resumeDownload` changes nothing and emits nothing. -/
theorem c9_resume_on_fresh_worker_is_noop (url : String) (clen : Int) :
    resumeDownload (initState url) clen = (initState url, []) := rfl

/-- The state of a fresh worker right after its first `startDownload`. -/
def startedState : DState :=
  (startDownload (initState "http://example.com/file.bin") 1000).1

/-- Claim C3, counterexample.  A download that fails mid-transfer leaves
its record on disk with the in-progress marker — but the recovery scan of
`loadUnfinishedDownloads` skips every record whose status is
"in-progress", so that URL is not resubmitted, contradicting the claim's
second half. -/
theorem c3_inprogress_record_not_resubmitted :
    (run (initState "http://example.com/file.bin")
        [Op.start 1000, Op.progress 100 1000 100,
         Op.finish (some "Connection reset") 0]).1.record =
      some (renderRecord "http://example.com/file.bin" 100 1000 "in-progress") ∧
    recoveredUrls
      [renderRecord "http://example.com/file.bin" 100 1000 "in-progress"] = [] := by
  decide

/-- Claim C3, amended.  A transport failure leaves the progress record
exactly as it was (the failure branch only emits the failed signal), and a
fresh-run recovery scan resubmits a record's URL precisely when the parsed
URL is nonempty and the parsed status is not "in-progress" (e.g. a record
paused before the crash); records bearing the in-progress marker are
skipped. -/
theorem c3_failure_keeps_record_scan_skips_inprogress
    (s : DState) (e : String) (chunk : Nat) (ls : List String)
    (h1 : (parseRecord ls).1 ≠ "")
    (h2 : (parseRecord ls).2.2 ≠ "in-progress") :
    (onDownloadFinished s (some e) chunk).1.record = s.record ∧
    (onDownloadFinished s (some e) chunk).2 = [Event.failed e] ∧
    (parseRecord ls).1 ∈ recoveredUrls [ls] := by
  refine ⟨rfl, rfl, ?_⟩
  simp [recoveredUrls, h1, h2]

/-- Witness for the amended claim C3, at a worker paused at 400 of 1000
bytes that then fails with a connection reset. -/
theorem c3_witness :
    (onDownloadFinished pausedWith400OnDisk (some "Connection reset") 0).1.record =
      pausedWith400OnDisk.record ∧
    (onDownloadFinished pausedWith400OnDisk (some "Connection reset") 0).2 =
      [Event.failed "Connection reset"] ∧
    (parseRecord (renderRecord "http://example.com/file.bin" 400 1000 "paused")).1 ∈
      recoveredUrls [renderRecord "http://example.com/file.bin" 400 1000 "paused"] :=
  c3_failure_keeps_record_scan_skips_inprogress pausedWith400OnDisk
    "Connection reset" 0
    (renderRecord "http://example.com/file.bin" 400 1000 "paused")
    (by decide) (by decide)

/-- Claim C4, counterexample.  When a progress record for the URL already
exists on disk at `startDownload` time (e.g. one left by a previous run),
`createProgressFile` is skipped and the `progressFile` member stays null,
so the completion branch never deletes the record: after a successful
finish it is still present, contradicting the claim. -/
theorem c4_preexisting_record_survives_success :
    (run { initState "http://example.com/file.bin" with
            record := some (renderRecord "http://example.com/file.bin" 100 1000
              "in-progress") }
        [Op.start 1000, Op.finish none 0]).1.record =
      some (renderRecord "http://example.com/file.bin" 100 1000 "in-progress") := by
  decide

/-- Claim C4, amended.  For every download whose worker owns its progress
file (the `progressFile` member is non-null, i.e. the worker created the
record itself), a successful completion deletes the record from the store. -/
theorem c4_owned_record_deleted_on_success (s : DState) (chunk : Nat)
    (h : s.progressFileSet = true) :
    (onDownloadFinished s none chunk).1.record = none := by
  cases hf : s.fileObj with
  | none => simp [onDownloadFinished, hf, h]
  | some b => cases b <;> simp [onDownloadFinished, hf, h]

/-- Witness for the amended claim C4: a fresh worker that created its own
record has it deleted on successful completion. -/
theorem c4_witness :
    startedState.progressFileSet = true ∧
    (onDownloadFinished startedState none 0).1.record = none :=
  ⟨by decide, c4_owned_record_deleted_on_success startedState 0 (by decide)⟩

/-- Claim C6, counterexample.  The counter is claimed to be monotonically
non-decreasing across every operation while active; but after progressing
to 400 bytes, a pause followed by a resume resets it to 0 (resume re-runs
`startDownload`, which truncates the file and reads its size 0). -/
theorem c6_counter_drops_across_resume :
    (run (initState "http://example.com/file.bin")
        [Op.start 1000, Op.progress 400 1000 400]).1.downloadedBytes = 400 ∧
    (run (initState "http://example.com/file.bin")
        [Op.start 1000, Op.progress 400 1000 400, Op.pause,
         Op.resume 1000]).1.downloadedBytes = 0 := by
  decide

/-- Claim C6, amended.  The counter is non-negative whenever the transport
reports non-negative cumulative byte counts, and pause and finish leave it
unchanged; within one request, each progress callback sets it to the
transport's cumulative count (so it is non-decreasing while those counts
are); but `start` and `resume` reset it to 0 (the size of the truncated
file), so it is not non-decreasing across a resume. -/
theorem c6_counter_dynamics (s : DState) (br bt clen : Int) (c ch : Nat)
    (err : Option String) (b : Bool) (hf : s.fileObj = some b)
    (hbr : 0 ≤ br) :
    (onDownloadProgress s br bt c).1.downloadedBytes = br ∧
    0 ≤ (onDownloadProgress s br bt c).1.downloadedBytes ∧
    (pauseDownload s).1.downloadedBytes = s.downloadedBytes ∧
    (onDownloadFinished s err ch).1.downloadedBytes = s.downloadedBytes ∧
    (startDownload s clen).1.downloadedBytes = 0 ∧
    ((resumeDownload s clen).1.downloadedBytes = 0 ∨
      (resumeDownload s clen).1.downloadedBytes = s.downloadedBytes) := by
  refine ⟨onDownloadProgress_downloadedBytes s br bt c b hf, ?_,
    pauseDownload_downloadedBytes s, onDownloadFinished_downloadedBytes s err ch,
    startDownload_downloadedBytes s clen, ?_⟩
  · rw [onDownloadProgress_downloadedBytes s br bt c b hf]
    exact hbr
  · by_cases hp : s.paused
    · left
      simp [resumeDownload, hp, startDownload_downloadedBytes]
    · right
      simp [resumeDownload, hp]

/-- Witness for the amended claim C6, at a just-started worker receiving a
100-byte progress callback. -/
theorem c6_witness :
    (onDownloadProgress startedState 100 1000 100).1.downloadedBytes = 100 ∧
    0 ≤ (onDownloadProgress startedState 100 1000 100).1.downloadedBytes ∧
    (pauseDownload startedState).1.downloadedBytes = startedState.downloadedBytes ∧
    (onDownloadFinished startedState none 0).1.downloadedBytes =
      startedState.downloadedBytes ∧
    (startDownload startedState 1000).1.downloadedBytes = 0 ∧
    ((resumeDownload startedState 1000).1.downloadedBytes = 0 ∨
      (resumeDownload startedState 1000).1.downloadedBytes =
        startedState.downloadedBytes) :=
  c6_counter_dynamics startedState 100 1000 1000 100 0 none true
    (by decide) (by decide)

/-- Claim C7.  Every progress event a `Downloader` emits carries a nonzero
total (the emitter replaces any non-positive transport total with the
placeholder 1), and the progress-bar percentage computation of Main.cpp
special-cases a zero total, so 0 is never among the divisors it uses. -/
theorem c7_progress_total_never_zero_divisor (s : DState) (br bt : Int)
    (c : Nat) (r t : Int)
    (h : Event.progress r t ∈ (onDownloadProgress s br bt c).2) :
    t ≠ 0 ∧ (0 : Int) ∉ progressBarDivisors t := by
  cases hf : s.fileObj with
  | none => simp [onDownloadProgress, hf] at h
  | some b =>
    rw [onDownloadProgress_events s br bt c b hf] at h
    have h' := List.mem_singleton.mp h
    by_cases hbt : bt > 0
    · rw [if_pos hbt] at h'
      injection h' with hr ht
      have ht0 : t ≠ 0 := by omega
      refine ⟨ht0, ?_⟩
      unfold progressBarDivisors
      rw [if_neg ht0]
      simp only [List.mem_singleton]
      omega
    · rw [if_neg hbt] at h'
      injection h' with hr ht
      have ht0 : t ≠ 0 := by omega
      refine ⟨ht0, ?_⟩
      unfold progressBarDivisors
      rw [if_neg ht0]
      simp only [List.mem_singleton]
      omega

/-- Witness for claim C7, at a progress callback reporting 100 of 1000
bytes on a just-started worker. -/
theorem c7_witness :
    (1000 : Int) ≠ 0 ∧ (0 : Int) ∉ progressBarDivisors 1000 :=
  c7_progress_total_never_zero_divisor startedState 100 1000 100 100 1000
    (by decide)

/-- Claim C8.  The record writer and the recovery parser of this program
do not round-trip the byte counter: a record written for
(url, 400, 1000, paused) parses back with url and status intact but with
0 instead of 400, because the written line is "Downloaded: 400 / 1000"
and `toLongLong` of "400 / 1000" is not a valid integer, yielding 0. -/
theorem c8_downloaded_bytes_lost_in_roundtrip :
    parseRecord (renderRecord "http://example.com/file.bin" 400 1000 "paused") =
      ("http://example.com/file.bin", 0, "paused") ∧
    (parseRecord (renderRecord "http://example.com/file.bin" 400 1000 "paused")).2.1 ≠
      400 := by
  decide

/-- Claim C10.  Whenever the transport reports a total byte count of at
most 0, the progress slot emits the placeholder total 1 — never 0 — so a
consumer testing for a zero total never observes that sentinel from this
emitter. -/
theorem c10_placeholder_one_for_nonpositive_total (s : DState) (br bt : Int)
    (c : Nat) (r t : Int) (h1 : bt ≤ 0)
    (h2 : Event.progress r t ∈ (onDownloadProgress s br bt c).2) :
    t = 1 ∧ t ≠ 0 := by
  cases hf : s.fileObj with
  | none => simp [onDownloadProgress, hf] at h2
  | some b =>
    rw [onDownloadProgress_events s br bt c b hf] at h2
    rw [if_neg (by omega : ¬ bt > 0)] at h2
    have h' := List.mem_singleton.mp h2
    injection h' with hr ht
    subst ht
    exact ⟨rfl, one_ne_zero⟩

/-- Witness for claim C10, at a progress callback reporting the unknown
total -1 on a just-started worker. -/
theorem c10_witness : (1 : Int) = 1 ∧ (1 : Int) ≠ 0 :=
  c10_placeholder_one_for_nonpositive_total startedState 100 (-1) 100 100 1
    (by decide) (by decide)

end QTDM
